import Mathlib

/-!
Verification development for the gsvpd Google Street View panorama
downloader (`gsvpd/core.py`, `gsvpd/constants.py`, `gsvpd/my_utils.py`).

The Python source is shallowly embedded:

* a decoded tile raster (`np.array(tile)`, an H x W x 3 array of channel
  values) is a list of rows of RGB triples (`Img`);
* the HTTP environment seen by one tile fetch is a function from the
  attempt number (1-based, as in the source's `for attempt in
  range(1, retries + 1)`) to that attempt's outcome (`Attempt`);
* observable effects (issuing a GET, sleeping for a backoff delay,
  acquiring a concurrency-limiter slot) are recorded in an event trace
  (`Ev`); floating point delays are modelled by rationals;
* a Python `None` result is `Option.none`; an uncaught exception is
  `Except.error`.

Dictionaries from `constants.py` are embedded as `Option`-valued lookup
functions; a `KeyError` on a missing key is an `Except.error` at the use
site.
-/

/-- One RGB pixel: the three channel values of `np.array(tile)[r][c]`. -/
abbrev Pixel := Nat × Nat × Nat

/-- A decoded tile raster: rows of RGB pixels (`np.array(tile)`). -/
abbrev Img := List (List Pixel)

/-- All three channels of a pixel are `<= threshold` — the per-entry
`arr <= threshold` test that numpy applies elementwise. -/
def pixelBlack (threshold : Nat) (p : Pixel) : Bool :=
  p.1 ≤ threshold && p.2.1 ≤ threshold && p.2.2 ≤ threshold

/-- Embedding of `my_utils.has_black_bottom`: `arr[-check_rows:]` are the last
`check_rows` rows (all rows when fewer exist), and `np.all(bottom <=
black_threshold)` requires every channel of every pixel there to be at
most the threshold (vacuously true on an empty slice, as in numpy). -/
def has_black_bottom (tile : Img) (black_threshold : Nat := 10)
    (check_rows : Nat := 5) : Bool :=
  (tile.drop (tile.length - check_rows)).all fun row =>
    row.all (pixelBlack black_threshold)

/-- Embedding of `my_utils.black_percentage`: fraction of pixels whose three channels
are all `<= threshold`, times 100.  `np.sum(black_pixels)` is the count
of black pixels and `black_pixels.size` the pixel count; the float
quotient is modelled as an exact rational. -/
def black_percentage (tile : Img) (threshold : Nat := 10) : ℚ :=
  let totalPixels : Nat := (tile.map List.length).sum
  let blackPixels : Nat :=
    (tile.map fun row => row.countP (pixelBlack threshold)).sum
  (blackPixels : ℚ) / (totalPixels : ℚ) * 100

/-- Table `constants.ZOOM_SIZES` (post-2016 sizes), a dict keyed by zoom. -/
def ZOOM_SIZES : Nat → Option (Nat × Nat)
  | 0 => some (512, 256)
  | 1 => some (1024, 512)
  | 2 => some (2048, 1024)
  | _ => none

/-- Table `constants.OLD_ZOOM_SIZES` (pre-2016 sizes), a dict keyed by zoom. -/
def OLD_ZOOM_SIZES : Nat → Option (Nat × Nat)
  | 0 => some (416, 208)
  | 1 => some (832, 416)
  | 2 => some (1664, 832)
  | _ => none

/-- Table `constants.TILES_AXIS_COUNT`: zoom level to (tiles_x, tiles_y). -/
def TILES_AXIS_COUNT : Nat → Option (Nat × Nat)
  | 0 => some (0, 0)
  | 1 => some (1, 0)
  | 2 => some (3, 1)
  | 3 => some (7, 3)
  | 4 => some (15, 7)
  | 5 => some (31, 15)
  | _ => none

/-- Table `constants.TILE_COUNT_TO_SIZE`: (x_tiles, y_tiles) to (width, height);
`dict.get` returns `none` on a missing key. -/
def TILE_COUNT_TO_SIZE : Nat × Nat → Option (Nat × Nat)
  | (8, 4) => some (4096, 2048)
  | (7, 4) => some (3328, 1664)
  | (16, 8) => some (8192, 4096)
  | (13, 7) => some (6656, 3328)
  | (32, 16) => some (16384, 8192)
  | (26, 13) => some (13312, 6656)
  | _ => none

/-- Constant `constants.TILE_SIZE`. -/
def TILE_SIZE : Nat := 512

/-- Observable events of the core, in program order:
HTTP GET of one tile, a backoff sleep, and acquisitions/releases of the
two admission limiters the spec describes. -/
inductive Ev where
  | httpGet : Ev
  | sleep : ℚ → Ev
  | acquirePano : Ev
  | releasePano : Ev
  | acquireTile : Ev
  | releaseTile : Ev
deriving DecidableEq, Repr

/-- Outcome of one attempt of `fetch_tile`'s `try` body, supplied by the
environment: either `session.get` itself raises (timeout / connection
error), or a response arrives carrying a status code, an optional
`Content-Length` header value, and the result of `read` + `Image.open`
(`none` when reading or decoding raises). -/
inductive Attempt where
  | connectFail : Attempt
  | response : Nat → Option Nat → Option Img → Attempt
deriving DecidableEq

/-- The retry loop of `core.fetch_tile`, on its (1-based) `attempt`
counter; `remaining = retries - attempt + 1` is the number of loop
iterations left, so `remaining = 1` exactly when `attempt = retries`
(the source's `attempt < retries` test failing).  Returns the decoded
tile (if any) together with the event trace: each iteration issues one
GET; a transient failure before the last iteration sleeps
`backoff * 2 ** (attempt - 1)` and retries. -/
def fetchGo (env : Nat → Attempt) (backoff : ℚ) :
    Nat → Nat → Option Img × List Ev
  | _, 0 => (none, [])
  | attempt, r + 1 =>
    match env attempt with
    | .connectFail =>
      if r = 0 then (none, [.httpGet])
      else
        let w := backoff * 2 ^ (attempt - 1)
        let rest := fetchGo env backoff (attempt + 1) r
        (rest.1, .httpGet :: .sleep w :: rest.2)
    | .response status clen readRes =>
      if status ≠ 200 then (none, [.httpGet])
      else if clen.getD 0 = 1184 then (none, [.httpGet])
      else
        match readRes with
        | some img => (some img, [.httpGet])
        | none =>
          if r = 0 then (none, [.httpGet])
          else
            let w := backoff * 2 ^ (attempt - 1)
            let rest := fetchGo env backoff (attempt + 1) r
            (rest.1, .httpGet :: .sleep w :: rest.2)

/-- Embedding of `core.fetch_tile`: fetch one tile with up to `retries` attempts,
classifying each response exactly as the source does — non-200 status
returns `None` at once; a `Content-Length` of `BLACK_TILE_BYTE_SIZE =
1184` (header absent parsing as 0) returns `None` at once; otherwise the
decoded image is returned as `(x, y, tile)`; an exception retries after
an exponential-backoff sleep, and exhaustion returns `None`. -/
def fetch_tile (env : Nat → Attempt) (x y : Nat) (retries : Nat := 3)
    (backoff : ℚ := 1 / 5) : Option (Nat × Nat × Img) × List Ev :=
  let r := fetchGo env backoff 1 retries
  (r.1.map fun img => (x, y, img), r.2)

/-- The trace of `k` consecutive transient-failure iterations starting at
attempt number `attempt`: each issues a GET then sleeps its backoff. -/
def retryEvents (backoff : ℚ) : Nat → Nat → List Ev
  | _, 0 => []
  | attempt, k + 1 =>
    .httpGet :: .sleep (backoff * 2 ^ (attempt - 1)) ::
      retryEvents backoff (attempt + 1) k

/-- The backoff delays slept during a trace, in order. -/
def sleepDelays (evs : List Ev) : List ℚ :=
  evs.filterMap fun e =>
    match e with
    | .sleep d => some d
    | _ => none

/-- Number of HTTP GETs (fetch attempts) in a trace. -/
def countGets (evs : List Ev) : Nat :=
  evs.countP fun e =>
    match e with
    | .httpGet => true
    | _ => false

/-- Attempt `i` fails transiently: `session.get` raises, or the response
passes the status and black-tile checks but reading/decoding raises. -/
def transientAt (env : Nat → Attempt) (i : Nat) : Prop :=
  match env i with
  | .connectFail => True
  | .response status clen readRes =>
    status = 200 ∧ clen.getD 0 ≠ 1184 ∧ readRes = none

/-- Dict subscript `d[k]` on a zoom-keyed table: a missing key raises
`KeyError`, modelled as `Except.error`. -/
def dictGet (d : Nat → Option (Nat × Nat)) (k : Nat) :
    Except Unit (Nat × Nat) :=
  match d k with
  | some v => .ok v
  | none => .error ()

/-- Embedding of `core.determine_dimensions`.  The `run_in_executor` offload computes
`black_percentage` / `has_black_bottom` on a worker process and returns
its plain value; the offload is modelled as a direct call.  Zoom 0
samples `tiles[0]`, zoom 1–2 samples `tiles[1]` (an out-of-range index
raises `IndexError`, modelled as `Except.error`); zoom ≥ 3 is the
`TILE_COUNT_TO_SIZE.get` lookup, whose miss returns `None`. -/
def determine_dimensions (tiles : List (Nat × Nat × Img))
    (zoom_level : Nat) (x_tiles_count y_tiles_count : Nat) :
    Except Unit (Option (Nat × Nat)) :=
  if zoom_level = 0 then
    match tiles[0]? with
    | none => .error ()
    | some t =>
      if black_percentage t.2.2 > 55 then
        (dictGet OLD_ZOOM_SIZES zoom_level).map some
      else (dictGet ZOOM_SIZES zoom_level).map some
  else if 0 < zoom_level ∧ zoom_level ≤ 2 then
    match tiles[1]? with
    | none => .error ()
    | some t =>
      if has_black_bottom t.2.2 then
        (dictGet OLD_ZOOM_SIZES zoom_level).map some
      else (dictGet ZOOM_SIZES zoom_level).map some
  else .ok (TILE_COUNT_TO_SIZE (x_tiles_count, y_tiles_count))

/-- Round a (nonnegative) rational to the nearest integer, ties to even —
the rounding `"%.2f"` formatting applies to the scaled value. -/
def roundHalfEven (q : ℚ) : Int :=
  let f : Int := ⌊q⌋
  let r : ℚ := q - f
  if r < 1 / 2 then f
  else if 1 / 2 < r then f + 1
  else if f % 2 = 0 then f else f + 1

/-- Python `f"{q:.2f}"` on a nonnegative value, with the float modelled
as an exact rational: two decimal places, ties to even. -/
def fmt2 (q : ℚ) : String :=
  let n := roundHalfEven (q * 100)
  let whole := n / 100
  let frac := (n % 100).toNat
  toString whole ++ "." ++
    (if frac < 10 then "0" ++ toString frac else toString frac)

/-- The unit loop of `my_utils.format_size`: return `f"{num:.2f} {unit}"`
at the first unit where `num < 1024`, else divide by 1024 and continue;
after all five units the value is printed as PB. -/
def format_size_go : ℚ → List String → String
  | q, [] => fmt2 q ++ " PB"
  | q, u :: us =>
    if q < 1024 then fmt2 q ++ " " ++ u else format_size_go (q / 1024) us

/-- Embedding of `my_utils.format_size`: human-readable rendering of a byte count. -/
def format_size (num_bytes : Nat) : String :=
  format_size_go (num_bytes : ℚ) ["B", "KB", "MB", "GB", "TB"]

/-- Embedding of `my_utils.save_img`: writes the stitched image as
`{output_dir}/panos_z{zoom}/{panoid}.jpg`, reads back the written file's
byte count with `os.path.getsize`, and returns `format_size` of it — a
human-readable string, not the byte count.  The byte count the
filesystem reports for the encoded file is the parameter; the filesystem
write itself is the external persistence side effect. -/
def save_img (file_size_bytes : Nat) : String :=
  format_size file_size_bytes

/-- A PIL image: its `.size` is `(width, height)`, fixed at `Image.new`
time; `paste` mutates only the pixel contents. -/
structure PImage where
  width : Nat
  height : Nat
  pixels : Img

/-- The all-black canvas `Image.new("RGB", (w, h))`. -/
def blankCanvas (w h : Nat) : Img :=
  List.replicate h (List.replicate w ((0, 0, 0) : Pixel))

/-- Model of `PIL.Image.paste`: `tile` at pixel offset `(ox, oy)`: each canvas
pixel inside the pasted rectangle takes the tile's pixel; pasting clips
at the canvas border. -/
def pasteTile (canvas : Img) (tile : Img) (ox oy : Nat) : Img :=
  canvas.mapIdx fun r row =>
    if r < oy then row
    else
      match tile[r - oy]? with
      | none => row
      | some trow =>
        row.mapIdx fun c p =>
          if c < ox then p else (trow[c - ox]?).getD p

/-- Embedding of `core.stitch_tiles`: paste every tile at `(x * TILE_SIZE,
y * TILE_SIZE)` onto a fresh `(width, height)` RGB canvas. -/
def stitch_tiles (tiles : List (Nat × Nat × Img)) (width height : Nat) :
    PImage :=
  tiles.foldl
    (fun full_img t =>
      { full_img with
        pixels := pasteTile full_img.pixels t.2.2 (t.1 * TILE_SIZE)
          (t.2.1 * TILE_SIZE) })
    { width := width, height := height, pixels := blankCanvas width height }

/-- The metadata dict `core.process_panoid` returns on success. -/
structure PanoResult where
  panoid : String
  zoom : Nat
  size : Nat × Nat
  tiles : Nat × Nat
  file_size : String
deriving DecidableEq, Repr

/-- The fan-out order of `process_panoid`'s task list:
`for x in range(tiles_x + 1) for y in range(tiles_y + 1)`. -/
def grid_coords (tiles_x tiles_y : Nat) : List (Nat × Nat) :=
  ((List.range (tiles_x + 1)).map fun x =>
    (List.range (tiles_y + 1)).map fun y => (x, y)).flatten

/-- The per-cell `fetch_tile` results of one panorama job; the
environment gives each grid cell its own attempt outcomes. -/
def tile_fetches (env : Nat → Nat → Nat → Attempt) (tiles_x tiles_y : Nat) :
    List (Option (Nat × Nat × Img) × List Ev) :=
  (grid_coords tiles_x tiles_y).map fun c =>
    fetch_tile (env c.1 c.2) c.1 c.2 3 (1 / 5)

/-- The tiles surviving the `if tile is not None` filter. -/
def surviving_tiles (env : Nat → Nat → Nat → Attempt)
    (tiles_x tiles_y : Nat) : List (Nat × Nat × Img) :=
  (tile_fetches env tiles_x tiles_y).filterMap Prod.fst

/-- The body of `core.process_panoid` inside its `try`, run with the
panorama semaphore held: look up the grid extent (`KeyError` if the dict
has no such zoom), fan out the fetches, drop `None` tiles, return `None`
cleanly when no tile survived, count distinct x and y coordinates,
resolve dimensions (`w, h = await determine_dimensions(...)` raises
`TypeError` when the lookup returned `None`), stitch, save, and build
the metadata dict.  `fsize` is the byte count the filesystem reports for
the written JPEG.  An `Except.error` is an exception leaving the body. -/
def process_body (env : Nat → Nat → Nat → Attempt) (panoid : String)
    (zoom_level : Nat) (fsize : Nat) :
    Except Unit (Option PanoResult) × List Ev :=
  match TILES_AXIS_COUNT zoom_level with
  | none => (.error (), [])
  | some (tiles_x, tiles_y) =>
    let fetches := tile_fetches env tiles_x tiles_y
    let trace := (fetches.map Prod.snd).flatten
    let tiles := surviving_tiles env tiles_x tiles_y
    if tiles.isEmpty then (.ok none, trace)
    else
      let x_tiles_count := (tiles.map fun t => t.1).dedup.length
      let y_tiles_count := (tiles.map fun t => t.2.1).dedup.length
      match determine_dimensions tiles zoom_level x_tiles_count
          y_tiles_count with
      | .error e => (.error e, trace)
      | .ok none => (.error (), trace)
      | .ok (some (w, h)) =>
        let full_img := stitch_tiles tiles w h
        let img_file_size := save_img fsize
        let img_size := (full_img.width, full_img.height)
        let res : PanoResult :=
          { panoid := panoid, zoom := zoom_level, size := img_size,
            tiles := (x_tiles_count, y_tiles_count),
            file_size := img_file_size }
        (.ok (some res), trace)

/-- Embedding of `core.process_panoid`: the panorama semaphore is acquired on entry
and released on exit (also when unwinding), and the surrounding
`try ... except Exception` converts any exception from the body into a
`None` result. -/
def process_panoid (env : Nat → Nat → Nat → Attempt) (panoid : String)
    (zoom_level : Nat) (fsize : Nat) : Option PanoResult × List Ev :=
  let b := process_body env panoid zoom_level fsize
  let trace := Ev.acquirePano :: b.2 ++ [Ev.releasePano]
  match b.1 with
  | .ok r => (r, trace)
  | .error _ => (none, trace)

/-- Embedding of `core.fetch_panos`: default the output directory to `os.getcwd()`,
run one `process_panoid` per panoid over the shared session, keep the
non-`None` results, and return `(len(tasks), len(success_panos),
output_dir)` together with the combined event trace. -/
def fetch_panos (envs : String → Nat → Nat → Nat → Attempt)
    (fsizes : String → Nat) (zoom_level : Nat) (panoids : List String)
    (cwd : String) (output_dir : Option String) :
    (Nat × Nat × String) × List Ev :=
  let dir := output_dir.getD cwd
  let results := panoids.map fun p =>
    process_panoid (envs p) p zoom_level (fsizes p)
  let success_panos := (results.map Prod.fst).filterMap id
  ((panoids.length, success_panos.length, dir),
    (results.map Prod.snd).flatten)

example : fetch_tile (fun _ => .response 404 none none) 0 0 3 (1 / 5)
    = (none, [.httpGet]) := rfl

example : fetch_tile (fun _ => .response 200 (some 1184) none) 5 7 3 (1 / 5)
    = (none, [.httpGet]) := rfl

example :
    fetch_tile (fun _ => .response 200 (some 2000) (some [[(9, 9, 9)]]))
      2 3 3 (1 / 5) = (some (2, 3, [[(9, 9, 9)]]), [.httpGet]) := rfl

example : fetch_tile (fun _ => .connectFail) 0 0 3 (1 / 5)
    = (none, [.httpGet, .sleep (1 / 5), .httpGet, .sleep (2 / 5),
        .httpGet]) := by norm_num [fetch_tile, fetchGo]

lemma fetchGo_terminal (env : Nat → Attempt) (backoff : ℚ) (attempt : Nat)
    (h : transientAt env attempt) :
    fetchGo env backoff attempt 1 = (none, [Ev.httpGet]) := by
  unfold transientAt at h
  cases he : env attempt with
  | connectFail => simp [fetchGo, he]
  | response s c rr =>
    rw [he] at h
    obtain ⟨h1, h2, h3⟩ := h
    subst h1 h3
    simp [fetchGo, he, h2]

lemma fetchGo_success (env : Nat → Attempt) (backoff : ℚ)
    (attempt r : Nat) (c : Option Nat) (img : Img)
    (he : env attempt = .response 200 c (some img))
    (hc : c.getD 0 ≠ 1184) :
    fetchGo env backoff attempt (r + 1) = (some img, [Ev.httpGet]) := by
  simp [fetchGo, he, hc]

lemma fetchGo_transient_step (env : Nat → Attempt) (backoff : ℚ)
    (attempt r : Nat) (hr : r ≠ 0) (h : transientAt env attempt) :
    fetchGo env backoff attempt (r + 1) =
      ((fetchGo env backoff (attempt + 1) r).1,
        Ev.httpGet :: Ev.sleep (backoff * 2 ^ (attempt - 1)) ::
          (fetchGo env backoff (attempt + 1) r).2) := by
  unfold transientAt at h
  cases he : env attempt with
  | connectFail => simp [fetchGo, he, hr]
  | response s c rr =>
    rw [he] at h
    obtain ⟨h1, h2, h3⟩ := h
    subst h1 h3
    simp [fetchGo, he, h2, hr]

lemma fetchGo_skip (env : Nat → Attempt) (backoff : ℚ) (k : Nat) :
    ∀ attempt r : Nat,
      (∀ i, attempt ≤ i → i < attempt + k → transientAt env i) →
      fetchGo env backoff attempt (k + (r + 1)) =
        ((fetchGo env backoff (attempt + k) (r + 1)).1,
          retryEvents backoff attempt k ++
            (fetchGo env backoff (attempt + k) (r + 1)).2) := by
  induction k with
  | zero => intro attempt r _; simp [retryEvents]
  | succ k ih =>
    intro attempt r h
    have h0 : transientAt env attempt := h attempt le_rfl (by omega)
    have harg : (k + 1) + (r + 1) = (k + (r + 1)) + 1 := by omega
    have hstep := fetchGo_transient_step env backoff attempt (k + (r + 1))
      (by omega) h0
    rw [harg, hstep]
    have ih1 := ih (attempt + 1) r (fun i hi1 hi2 => h i (by omega) (by omega))
    rw [ih1]
    have hsh : attempt + 1 + k = attempt + (k + 1) := by omega
    rw [hsh]
    simp [retryEvents]

lemma countGets_retryEvents (backoff : ℚ) :
    ∀ k a : Nat, countGets (retryEvents backoff a k) = k := by
  intro k
  induction k with
  | zero => intro a; simp [retryEvents, countGets]
  | succ k ih =>
    intro a
    simp [retryEvents, countGets, List.countP_cons] at *
    exact ih (a + 1)

lemma sleepDelays_cons_get (l : List Ev) :
    sleepDelays (Ev.httpGet :: l) = sleepDelays l := by
  simp [sleepDelays]

lemma sleepDelays_cons_sleep (d : ℚ) (l : List Ev) :
    sleepDelays (Ev.sleep d :: l) = d :: sleepDelays l := by
  simp [sleepDelays]

lemma sleepDelays_retryEvents (backoff : ℚ) :
    ∀ k a : Nat, 1 ≤ a →
      sleepDelays (retryEvents backoff a k) =
        (List.range k).map fun i => backoff * 2 ^ (a - 1 + i) := by
  intro k
  induction k with
  | zero => intro a _; simp [retryEvents, sleepDelays]
  | succ k ih =>
    intro a ha
    rw [retryEvents, sleepDelays_cons_get, sleepDelays_cons_sleep,
      ih (a + 1) (by omega), List.range_succ_eq_map]
    simp only [List.map_cons, List.map_map, Nat.add_zero, List.cons.injEq,
      true_and]
    apply List.map_congr_left
    intro i _
    simp only [Function.comp_apply]
    congr 2
    omega

lemma fetchGo_events_shape (env : Nat → Attempt) (backoff : ℚ) :
    ∀ r attempt e, e ∈ (fetchGo env backoff attempt r).2 →
      e = Ev.httpGet ∨ ∃ d, e = Ev.sleep d := by
  intro r
  induction r with
  | zero => intro attempt e h; simp [fetchGo] at h
  | succ r ih =>
    intro attempt e h
    cases he : env attempt with
    | connectFail =>
      by_cases hr : r = 0
      · subst hr; simp [fetchGo, he] at h; exact Or.inl h
      · simp [fetchGo, he, hr] at h
        rcases h with h | h | h
        · exact Or.inl h
        · exact Or.inr ⟨_, h⟩
        · exact ih (attempt + 1) e h
    | response s c rr =>
      by_cases hs : s = 200
      · subst hs
        by_cases hc : c.getD 0 = 1184
        · simp [fetchGo, he, hc] at h; exact Or.inl h
        · cases rr with
          | some img => simp [fetchGo, he, hc] at h; exact Or.inl h
          | none =>
            by_cases hr : r = 0
            · subst hr; simp [fetchGo, he, hc] at h; exact Or.inl h
            · simp [fetchGo, he, hc, hr] at h
              rcases h with h | h | h
              · exact Or.inl h
              · exact Or.inr ⟨_, h⟩
              · exact ih (attempt + 1) e h
      · simp [fetchGo, he, hs] at h; exact Or.inl h

/-- C3: a `fetch_tile` call whose (first-attempt) response declares a
payload length equal to the black-tile constant 1184 returns `None`
with exactly one GET issued and no retry — regardless of the response's
status code (a non-200 status also returns `None` before the
black-tile check, so the observable outcome is the same for every
status). -/
theorem fetch_tile_black_tile_absent (env : Nat → Attempt)
    (x y retries : Nat) (backoff : ℚ) (s : Nat) (c : Option Nat)
    (rr : Option Img) (hret : 1 ≤ retries)
    (he : env 1 = .response s c rr) (hc : c.getD 0 = 1184) :
    fetch_tile env x y retries backoff = (none, [Ev.httpGet]) := by
  obtain ⟨r, rfl⟩ : ∃ r, retries = r + 1 := ⟨retries - 1, by omega⟩
  by_cases hs : s = 200
  · subst hs; simp [fetch_tile, fetchGo, he, hc]
  · simp [fetch_tile, fetchGo, he, hs]

/-- Witness for C3: a concrete black-tile response with a non-200
status code still yields `None` after a single attempt. -/
theorem fetch_tile_black_tile_absent_witness :
    (1 : Nat) ≤ 3 ∧
      fetch_tile (fun _ => .response 500 (some 1184) none) 0 0 3 (1 / 5) =
        (none, [Ev.httpGet]) :=
  ⟨by decide,
    fetch_tile_black_tile_absent (fun _ => .response 500 (some 1184) none)
      0 0 3 (1 / 5) 500 (some 1184) none (by decide) rfl rfl⟩

/-- C4: transient failures are retried with exponential backoff.  If the
first `k` attempts fail transiently, `k + 1 ≤ retries`, and attempt
`k + 1` yields a good response, the call returns the tile after `k + 1`
GETs, having slept the doubling delays `backoff * 2 ^ i` for
`i = 0, …, k - 1`.  If all `retries` attempts fail transiently, the call
returns `None` after exactly `retries` GETs — no further attempts. -/
theorem fetch_tile_retry_policy (env : Nat → Attempt) (x y retries k : Nat)
    (backoff : ℚ) (c : Option Nat) (img : Img) :
    ((∀ i, 1 ≤ i → i ≤ k → transientAt env i) →
      env (k + 1) = .response 200 c (some img) → c.getD 0 ≠ 1184 →
      k + 1 ≤ retries →
      fetch_tile env x y retries backoff =
        (some (x, y, img), retryEvents backoff 1 k ++ [Ev.httpGet]) ∧
      countGets (fetch_tile env x y retries backoff).2 = k + 1 ∧
      sleepDelays (fetch_tile env x y retries backoff).2 =
        (List.range k).map fun i => backoff * 2 ^ i) ∧
    ((∀ i, 1 ≤ i → i ≤ retries → transientAt env i) → 1 ≤ retries →
      (fetch_tile env x y retries backoff).1 = none ∧
      countGets (fetch_tile env x y retries backoff).2 = retries) := by
  constructor
  · intro htr he hc hle
    have hskip := fetchGo_skip env backoff k 1 (retries - k - 1)
      (fun i h1 h2 => htr i h1 (by omega))
    have hsucc := fetchGo_success env backoff (1 + k) (retries - k - 1) c img
      (by rw [Nat.add_comm]; exact he) hc
    have hsplit : retries = k + ((retries - k - 1) + 1) := by omega
    have hmain : fetch_tile env x y retries backoff =
        (some (x, y, img), retryEvents backoff 1 k ++ [Ev.httpGet]) := by
      show ((fetchGo env backoff 1 retries).1.map fun img => (x, y, img),
        (fetchGo env backoff 1 retries).2) = _
      rw [hsplit, hskip, hsucc]
      simp
    refine ⟨hmain, ?_, ?_⟩
    · rw [hmain]
      simp [countGets, List.countP_append]
      have := countGets_retryEvents backoff k 1
      simp [countGets] at this
      omega
    · rw [hmain]
      show sleepDelays (retryEvents backoff 1 k ++ [Ev.httpGet]) = _
      have happ : sleepDelays (retryEvents backoff 1 k ++ [Ev.httpGet]) =
          sleepDelays (retryEvents backoff 1 k) := by
        simp [sleepDelays, List.filterMap_append]
      rw [happ, sleepDelays_retryEvents backoff k 1 le_rfl]
      simp
  · intro htr hret
    have hskip := fetchGo_skip env backoff (retries - 1) 1 0
      (fun i h1 h2 => htr i h1 (by omega))
    have hterm := fetchGo_terminal env backoff (1 + (retries - 1))
      (htr _ (by omega) (by omega))
    have hsplit : retries = (retries - 1) + (0 + 1) := by omega
    have hmain : fetch_tile env x y retries backoff =
        (none, retryEvents backoff 1 (retries - 1) ++ [Ev.httpGet]) := by
      show ((fetchGo env backoff 1 retries).1.map fun img => (x, y, img),
        (fetchGo env backoff 1 retries).2) = _
      rw [hsplit, hskip, hterm]
      simp
    rw [hmain]
    refine ⟨rfl, ?_⟩
    simp [countGets, List.countP_append]
    have := countGets_retryEvents backoff (retries - 1) 1
    simp [countGets] at this
    omega

/-- Environment for the C4 witness: attempt 1 raises a connection error,
every later attempt returns a good tile. -/
def envRetryThenOk : Nat → Attempt := fun i =>
  match i with
  | 1 => .connectFail
  | _ => .response 200 (some 2000) (some [[(1, 2, 3)]])

/-- Witness for C4: with one transient failure and success on attempt 2
(ceiling 3), the tile is returned after 2 GETs and one backoff sleep;
with every attempt failing, `None` is returned after exactly 3 GETs. -/
theorem fetch_tile_retry_policy_witness :
    (fetch_tile envRetryThenOk 0 0 3 (1 / 5) =
        (some (0, 0, [[(1, 2, 3)]]),
          retryEvents (1 / 5) 1 1 ++ [Ev.httpGet]) ∧
      countGets (fetch_tile envRetryThenOk 0 0 3 (1 / 5)).2 = 2 ∧
      sleepDelays (fetch_tile envRetryThenOk 0 0 3 (1 / 5)).2 =
        (List.range 1).map fun i => (1 / 5 : ℚ) * 2 ^ i) ∧
    ((fetch_tile (fun _ => Attempt.connectFail) 0 0 3 (1 / 5)).1 = none ∧
      countGets (fetch_tile (fun _ => Attempt.connectFail) 0 0 3 (1 / 5)).2
        = 3) :=
  ⟨(fetch_tile_retry_policy envRetryThenOk 0 0 3 1 (1 / 5) (some 2000)
      [[(1, 2, 3)]]).1
      (by intro i h1 h2
          have : i = 1 := by omega
          subst this
          simp [transientAt, envRetryThenOk])
      rfl (by decide) (by decide),
    (fetch_tile_retry_policy (fun _ => Attempt.connectFail) 0 0 3 0 (1 / 5)
      none []).2
      (by intro i _ _; simp [transientAt]) (by decide)⟩

/-- C7: `fetch_tile` acquires no concurrency-limiter slot at all — its
event trace never contains a tile-limiter (or panorama-limiter)
acquisition, while a concrete call does issue an HTTP GET.  The spec's
tile-level admission control does not exist in the code: `run.py` and
the package docstring build a `sem_tile` semaphore and pass it to
`fetch_panos`, but `fetch_panos` accepts no such argument and
`fetch_tile` never touches one. -/
theorem fetch_tile_no_limiter_acquisition :
    (∀ (env : Nat → Attempt) (x y retries : Nat) (backoff : ℚ),
      Ev.acquireTile ∉ (fetch_tile env x y retries backoff).2 ∧
      Ev.acquirePano ∉ (fetch_tile env x y retries backoff).2) ∧
    Ev.httpGet ∈
      (fetch_tile (fun _ => Attempt.response 404 none none) 0 0 3
        (1 / 5)).2 := by
  constructor
  · intro env x y retries backoff
    constructor <;> intro hmem <;>
      rcases fetchGo_events_shape env backoff retries 1 _ hmem with
        h | ⟨d, h⟩ <;> simp at h
  · simp [fetch_tile, fetchGo]

/-- C1: at zoom 0 the resolver returns exactly `OLD_ZOOM_SIZES[0]` when
the sampled black-pixel fraction strictly exceeds 55 and exactly
`ZOOM_SIZES[0]` otherwise; at zoom 1–2 it returns exactly
`OLD_ZOOM_SIZES[zoom]` when the bottom rows of the reference tile
`tiles[1]` are uniformly near-black and exactly `ZOOM_SIZES[zoom]`
otherwise — no other value is possible. -/
theorem determine_dimensions_low_zoom_table
    (tiles : List (Nat × Nat × Img)) (zoom_level x_tiles_count
      y_tiles_count : Nat) (t : Nat × Nat × Img) (old cur : Nat × Nat)
    (hold : OLD_ZOOM_SIZES zoom_level = some old)
    (hcur : ZOOM_SIZES zoom_level = some cur) :
    (zoom_level = 0 → tiles[0]? = some t →
      determine_dimensions tiles zoom_level x_tiles_count y_tiles_count =
        .ok (some (if black_percentage t.2.2 > 55 then old else cur))) ∧
    (1 ≤ zoom_level → zoom_level ≤ 2 → tiles[1]? = some t →
      determine_dimensions tiles zoom_level x_tiles_count y_tiles_count =
        .ok (some (if has_black_bottom t.2.2 then old else cur))) := by
  constructor
  · intro hz hidx
    subst hz
    unfold determine_dimensions
    rw [if_pos rfl]
    simp [hidx, dictGet, hold, hcur, Except.map, apply_ite]
    split
    · intro h
      rename_i hgt
      exact absurd h (not_le.mpr hgt)
    · intro h
      rename_i hng
      exact absurd h hng
  · intro h1 h2 hidx
    have hz0 : ¬ zoom_level = 0 := by omega
    have hcond : 0 < zoom_level ∧ zoom_level ≤ 2 := ⟨h1, h2⟩
    unfold determine_dimensions
    rw [if_neg hz0, if_pos hcond]
    simp [hidx, dictGet, hold, hcur, Except.map, apply_ite]
    split
    · intro h
      rename_i ht
      rw [ht] at h
      simp at h
    · intro h
      rename_i hf
      exact absurd h hf

/-- A fully black 1x1 reference tile for witnesses. -/
def blackTile : Img := [[(0, 0, 0)]]

/-- Witness for C1: at zoom 1 with a black-bottom reference tile the
resolver returns the legacy table entry (832, 416). -/
theorem determine_dimensions_low_zoom_table_witness :
    has_black_bottom blackTile = true ∧
      determine_dimensions [(0, 0, blackTile), (1, 0, blackTile)] 1 2 1 =
        .ok (some (if has_black_bottom blackTile then (832, 416)
          else (1024, 512))) :=
  ⟨by decide,
    (determine_dimensions_low_zoom_table
      [(0, 0, blackTile), (1, 0, blackTile)] 1 2 1 (1, 0, blackTile)
      (832, 416) (1024, 512) rfl rfl).2 (by decide) (by decide) rfl⟩

/-- C2: for every zoom level ≥ 3 the resolver is exactly the
`TILE_COUNT_TO_SIZE` lookup on the observed tile counts: it returns the
table entry when one exists, and `None` (Absent) precisely when the
observed pair has no entry. -/
theorem determine_dimensions_high_zoom_lookup
    (tiles : List (Nat × Nat × Img))
    (zoom_level x_tiles_count y_tiles_count : Nat) (h : 3 ≤ zoom_level) :
    determine_dimensions tiles zoom_level x_tiles_count y_tiles_count =
      .ok (TILE_COUNT_TO_SIZE (x_tiles_count, y_tiles_count)) ∧
    (determine_dimensions tiles zoom_level x_tiles_count y_tiles_count =
        .ok none ↔
      TILE_COUNT_TO_SIZE (x_tiles_count, y_tiles_count) = none) := by
  have hz0 : ¬ zoom_level = 0 := by omega
  have hcond : ¬ (0 < zoom_level ∧ zoom_level ≤ 2) := by omega
  unfold determine_dimensions
  rw [if_neg hz0, if_neg hcond]
  exact ⟨rfl, by simp⟩

/-- Witness for C2: at zoom 3, observed counts (8, 4) resolve to the
table entry and observed counts (9, 9), which have no entry, resolve to
`None`. -/
theorem determine_dimensions_high_zoom_lookup_witness :
    determine_dimensions [] 3 8 4 = .ok (TILE_COUNT_TO_SIZE (8, 4)) ∧
      (determine_dimensions [] 3 9 9 = .ok none ↔
        TILE_COUNT_TO_SIZE (9, 9) = none) :=
  ⟨(determine_dimensions_high_zoom_lookup [] 3 8 4 (by decide)).1,
    (determine_dimensions_high_zoom_lookup [] 3 9 9 (by decide)).2⟩

/-- C8 counterexample: the current-format zoom-0 entry is (512, 256),
and its height 256 is not a multiple of the tile edge length
`TILE_SIZE = 512` — so "each axis is a multiple of the tile edge length,
with the sole exception of legacy imagery sizes" fails on a
current-format table entry. -/
theorem zoom0_height_not_tile_multiple :
    ZOOM_SIZES 0 = some (512, 256) ∧ ¬ TILE_SIZE ∣ 256 :=
  ⟨rfl, by intro h; rcases h with ⟨k, hk⟩; simp [TILE_SIZE] at hk; omega⟩

/-- C8 (amended): every entry of every size table has positive width and
height; every axis of every current-format entry is a multiple of
`TILE_SIZE`, except the current zoom-0 entry, whose height (256) is half
a tile edge; legacy entries are exempt as before. -/
theorem size_tables_positive_aligned :
    (∀ z p, ZOOM_SIZES z = some p →
      0 < p.1 ∧ 0 < p.2 ∧ TILE_SIZE ∣ p.1 ∧ (z = 0 ∨ TILE_SIZE ∣ p.2)) ∧
    (∀ z p, OLD_ZOOM_SIZES z = some p → 0 < p.1 ∧ 0 < p.2) ∧
    (∀ k p, TILE_COUNT_TO_SIZE k = some p → 0 < p.1 ∧ 0 < p.2) ∧
    (∀ k p, k ∈ [(8, 4), (16, 8), (32, 16)] →
      TILE_COUNT_TO_SIZE k = some p →
      TILE_SIZE ∣ p.1 ∧ TILE_SIZE ∣ p.2) := by
  refine ⟨?_, ?_, ?_, ?_⟩
  · intro z p h
    unfold ZOOM_SIZES at h
    split at h <;> simp_all <;> subst h <;> decide
  · intro z p h
    unfold OLD_ZOOM_SIZES at h
    split at h <;> simp_all <;> subst h <;> decide
  · intro k p h
    unfold TILE_COUNT_TO_SIZE at h
    split at h <;> simp_all <;> subst h <;> decide
  · intro k p hk h
    simp at hk
    rcases hk with hk | hk | hk <;> subst hk <;>
      simp [TILE_COUNT_TO_SIZE] at h <;> subst h <;> decide

/-- Witness for C8 (amended): the zoom-1 current entry (1024, 512) is
positive and both axes are multiples of `TILE_SIZE`. -/
theorem size_tables_positive_aligned_witness :
    0 < (1024 : Nat) ∧ 0 < (512 : Nat) ∧ TILE_SIZE ∣ 1024 ∧
      ((1 : Nat) = 0 ∨ TILE_SIZE ∣ 512) :=
  size_tables_positive_aligned.1 1 (1024, 512) rfl

/-- C5: if every tile fetch of a job returns `None`, `process_panoid`
returns `None` by its clean zero-tiles branch — the body completes
without an exception (`.ok none`) and the job result is Absent, not a
partial result. -/
theorem process_panoid_all_absent (env : Nat → Nat → Nat → Attempt)
    (panoid : String) (zoom_level fsize tiles_x tiles_y : Nat)
    (hz : TILES_AXIS_COUNT zoom_level = some (tiles_x, tiles_y))
    (hall : ∀ x y, (fetch_tile (env x y) x y 3 (1 / 5)).1 = none) :
    (process_body env panoid zoom_level fsize).1 = .ok none ∧
    (process_panoid env panoid zoom_level fsize).1 = none := by
  have hempty : surviving_tiles env tiles_x tiles_y = [] := by
    unfold surviving_tiles tile_fetches
    rw [List.filterMap_map]
    apply List.filterMap_eq_nil_iff.mpr
    intro c _
    exact hall c.1 c.2
  have h1 : (process_body env panoid zoom_level fsize).1 = .ok none := by
    simp [process_body, hz, hempty]
  exact ⟨h1, by simp [process_panoid, h1]⟩

/-- Witness for C5: an environment whose every response is a 404 yields
zero surviving tiles and an Absent job result at zoom 0. -/
theorem process_panoid_all_absent_witness :
    TILES_AXIS_COUNT 0 = some (0, 0) ∧
      ((process_body (fun _ _ _ => Attempt.response 404 none none) "p" 0
          7).1 = .ok none ∧
        (process_panoid (fun _ _ _ => Attempt.response 404 none none) "p" 0
          7).1 = none) :=
  ⟨rfl,
    process_panoid_all_absent (fun _ _ _ => Attempt.response 404 none none)
      "p" 0 7 0 0 rfl (fun _ _ => rfl)⟩

/-- C10: at zoom 1–2, when exactly one tile survives filtering, the
reference-tile access `tiles[1]` inside `determine_dimensions` is out of
range: the body raises (`.error`), and the `except` at the job boundary
converts it into an Absent (`None`) result instead of propagating. -/
theorem process_panoid_single_tile_caught (env : Nat → Nat → Nat → Attempt)
    (panoid : String) (zoom_level fsize tiles_x tiles_y : Nat)
    (hz12 : zoom_level = 1 ∨ zoom_level = 2)
    (hz : TILES_AXIS_COUNT zoom_level = some (tiles_x, tiles_y))
    (hone : (surviving_tiles env tiles_x tiles_y).length = 1) :
    (process_body env panoid zoom_level fsize).1 = .error () ∧
    (process_panoid env panoid zoom_level fsize).1 = none := by
  obtain ⟨t, htl⟩ := List.length_eq_one.mp hone
  have h1 : (process_body env panoid zoom_level fsize).1 = .error () := by
    rcases hz12 with rfl | rfl <;>
      simp [process_body, hz, htl, determine_dimensions]
  exact ⟨h1, by simp [process_panoid, h1]⟩

/-- Environment for the C10 witness: only grid cell (0, 0) yields a
tile; every other cell is a 404. -/
def envOneTile : Nat → Nat → Nat → Attempt := fun x _ _ =>
  match x with
  | 0 => .response 200 (some 2000) (some blackTile)
  | _ => .response 404 none none

/-- Witness for C10: at zoom 1 (grid 2 x 1) with exactly one surviving
tile, the job converts the resolver's out-of-range access into `None`. -/
theorem process_panoid_single_tile_caught_witness :
    ((1 : Nat) = 1 ∨ (1 : Nat) = 2) ∧
      (surviving_tiles envOneTile 1 0).length = 1 ∧
      ((process_body envOneTile "p" 1 7).1 = .error () ∧
        (process_panoid envOneTile "p" 1 7).1 = none) :=
  ⟨Or.inl rfl, rfl,
    process_panoid_single_tile_caught envOneTile "p" 1 7 1 0 (Or.inl rfl)
      rfl rfl⟩

/-- C6: `fetch_panos` reports a total equal to the number of identifiers
given and a success count equal to the number of jobs returning a
non-`None` result; on an empty identifier list it returns
(0, 0, output_dir) with an empty event trace — no network call at all. -/
theorem fetch_panos_outcome (envs : String → Nat → Nat → Nat → Attempt)
    (fsizes : String → Nat) (zoom_level : Nat) (panoids : List String)
    (cwd : String) (output_dir : Option String) :
    (fetch_panos envs fsizes zoom_level panoids cwd output_dir).1.1 =
      panoids.length ∧
    (fetch_panos envs fsizes zoom_level panoids cwd output_dir).1.2.1 =
      ((panoids.map fun p =>
        (process_panoid (envs p) p zoom_level (fsizes p)).1).filterMap
          id).length ∧
    (panoids = [] →
      fetch_panos envs fsizes zoom_level panoids cwd output_dir =
        ((0, 0, output_dir.getD cwd), [])) := by
  refine ⟨rfl, ?_, ?_⟩
  · simp only [fetch_panos, List.map_map]
    rfl
  · intro h
    subst h
    rfl

/-- Witness for C6: the empty batch returns (0, 0, cwd) and an empty
trace. -/
theorem fetch_panos_outcome_witness :
    ([] : List String) = [] ∧
      fetch_panos (fun _ _ _ _ => Attempt.response 404 none none)
        (fun _ => 0) 2 [] "cwd" none =
          ((0, 0, (none : Option String).getD "cwd"), []) :=
  ⟨rfl,
    (fetch_panos_outcome (fun _ _ _ _ => Attempt.response 404 none none)
      (fun _ => 0) 2 [] "cwd" none).2.2 rfl⟩

/-- C9: the "file_size" recorded in a successful job's metadata is
`save_img`'s return value, which is the human-readable `format_size`
rendering of the written file's byte count — a string such as
"512.00 B", not the byte count itself.  (The code contradicts its own
docstring, which declares `"file_size" (int): Size of saved image in
bytes`.) -/
theorem file_size_is_formatted_string :
    (∀ n : Nat, save_img n = format_size n) ∧
    save_img 512 = "512.00 B" ∧
    save_img 512 ≠ "512" ∧
    (∀ (env : Nat → Nat → Nat → Attempt) (panoid : String)
      (zoom_level fsize : Nat) (r : PanoResult),
      (process_body env panoid zoom_level fsize).1 = .ok (some r) →
      r.file_size = format_size fsize) := by
  have h512 : save_img 512 = "512.00 B" := by
    norm_num [save_img, format_size, format_size_go, fmt2, roundHalfEven]
    rfl
  refine ⟨fun n => rfl, h512, by rw [h512]; decide, ?_⟩
  intro env panoid zoom_level fsize r h
  unfold process_body at h
  split at h
  · simp at h
  · dsimp only [] at h
    split at h
    · simp at h
    · split at h
      · simp at h
      · simp at h
      · simp at h
        subst h
        rfl

/-- The metadata a fully successful zoom-3 job produces when every grid
cell returns a uniform white 1x1 tile and the written file is 512 bytes
long. -/
def pano9 : PanoResult :=
  { panoid := "pano", zoom := 3, size := (4096, 2048), tiles := (8, 4),
    file_size := save_img 512 }

/-- Witness for C9: a concrete successful zoom-3 job records
`format_size 512` (that is, "512.00 B") in its file_size field. -/
theorem file_size_is_formatted_string_witness :
    (process_body
        (fun _ _ _ =>
          Attempt.response 200 (some 2000) (some [[(255, 255, 255)]]))
        "pano" 3 512).1 = .ok (some pano9) ∧
      pano9.file_size = format_size 512 :=
  ⟨rfl,
    file_size_is_formatted_string.2.2.2
      (fun _ _ _ =>
        Attempt.response 200 (some 2000) (some [[(255, 255, 255)]]))
      "pano" 3 512 pano9 rfl⟩
